import Mathlib

/-!
Verification development for the panopticon simulation session engine
(`simulation_engine.py`, `scenarios.py`, `models.py`).

The Python code is shallowly embedded: stateful functions become explicit
state-passing functions, the text-completion gateway (`call_llm`) becomes a
function parameter of type `String → Except String String`, and effectful
inputs (`datetime.utcnow()`, `make_id(...)`) become explicit `now` / id
parameters.  Python `datetime` timestamps are modelled as `Nat` (only their
ordering is used); ages are `Int` (Python `int`).

Python string operations are modelled by structurally recursive functions on
`String.data : List Char` so that everything reduces in the kernel:
`str.strip` = drop whitespace at both ends, `str.splitlines` = split on the
newline character (the only newline convention used by the engine),
`str.split(":", 1)[1]` = everything after the first colon, `str.lower` /
`str.upper` = character-wise case mapping, `pat in s` = contiguous substring
test, and `str.format(child_age=..)` / `str.format(child_name=..)` =
left-to-right non-overlapping replacement of the placeholder, exactly like
Python `str.replace`.
-/

/-- Split a list of characters at every occurrence of `c` (keeping empty
segments), modelling Python `str.split(sep)` for a one-character separator. -/
def splitChar (c : Char) : List Char → List (List Char)
  | [] => [[]]
  | x :: xs =>
    if x = c then [] :: splitChar c xs
    else
      match splitChar c xs with
      | [] => [[x]]
      | g :: gs => (x :: g) :: gs

/-- Drop characters up to and including the first occurrence of `c`,
modelling Python `s.split(c, 1)[1]` (returns `[]` when `c` is absent; every
use in the engine is guarded by a prefix test that guarantees presence). -/
def afterChar (c : Char) : List Char → List Char
  | [] => []
  | x :: xs => if x = c then xs else afterChar c xs

/-- Strip whitespace from both ends of a character list (Python `str.strip`). -/
def trimChars (l : List Char) : List Char :=
  ((l.dropWhile Char.isWhitespace).reverse.dropWhile Char.isWhitespace).reverse

/-- Contiguous-substring test on character lists (Python `pat in s`). -/
def listHasSub [DecidableEq α] : List α → List α → Bool
  | [], pat => pat.isEmpty
  | l@(_ :: xs), pat => pat.isPrefixOf l || listHasSub xs pat

/-- Replace occurrences of `pat` by `rep` left-to-right without overlap
(Python `str.replace`); `fuel` is initialised with the length of the list. -/
def replaceList (pat rep : List Char) : Nat → List Char → List Char
  | 0, l => l
  | _ + 1, [] => []
  | fuel + 1, l@(x :: xs) =>
    if pat.isPrefixOf l then rep ++ replaceList pat rep fuel (l.drop pat.length)
    else x :: replaceList pat rep fuel xs

/-- Python `str.strip`. -/
def strTrim (s : String) : String := ⟨trimChars s.data⟩

/-- Python `str.lower`. -/
def strToLower (s : String) : String := ⟨s.data.map Char.toLower⟩

/-- Python `str.upper`. -/
def strToUpper (s : String) : String := ⟨s.data.map Char.toUpper⟩

/-- Python `str.startswith`. -/
def strStartsWith (s pre : String) : Bool := pre.data.isPrefixOf s.data

/-- Python `s.split(":", 1)[1]`. -/
def strAfterColon (s : String) : String := ⟨afterChar ':' s.data⟩

/-- Python `str.splitlines`, with the newline convention fixed to the single
character used by the engine. -/
def strSplitLines (s : String) : List String := (splitChar '\n' s.data).map String.mk

/-- Python `pat in s`. -/
def strContainsSub (s pat : String) : Bool := listHasSub s.data pat.data

/-- Python `str.replace s pat rep`. -/
def strReplace (s pat rep : String) : String :=
  ⟨replaceList pat.data rep.data s.data.length s.data⟩

/-- Python `sep.join xs`. -/
def joinWith (sep : String) : List String → String
  | [] => ""
  | [x] => x
  | x :: y :: xs => x ++ sep ++ joinWith sep (y :: xs)

/-- Render an `Option String` the way a Python f-string renders
`None` / `str`. -/
def optToString : Option String → String
  | none => "None"
  | some s => s

/-! ## Data model (models.py)

Only the fields read or written by the simulation engine are embedded.
`ChildConfig` keeps `name` and `age` (its feed-tuning fields — interests,
mode, posting limits, ratios — are never read by the engine);  `ChildState`
keeps `id`, `config`, `profile_id`, `dm_messages` and `simulation_events`
(the engine never touches `posts` or `skill_profile`);  `GardenState` is
omitted entirely because every engine function receives it and never reads
it.  `DMMessage`, `SimulationEvent` and `SimulationScenario` are embedded
with all their fields. -/

structure ChildConfig where
  name : String
  age : Int
deriving DecidableEq, Repr

structure DMMessage where
  id : String
  child_id : String
  conversation_id : String
  sender_profile_id : String
  receiver_profile_id : String
  text : String
  created_at : Nat
  is_simulation : Bool
  simulation_tag : Option String
deriving DecidableEq, Repr

structure SimulationEvent where
  id : String
  child_id : String
  scenario_id : String
  partner_profile_id : String
  created_at : Nat
  incoming_message_id : String
  child_reply_message_id : Option String
  outcome_label : Option String
  backend_used : Option String
  model_used : Option String
  is_active : Bool
  evaluation_summary : Option String
deriving DecidableEq, Repr

structure SimulationScenario where
  id : String
  title : String
  description : String
  risk_type : String
  recommended_age_min : Int
  recommended_age_max : Int
  system_prompt_template : String
  user_message_template : String
  canned_message_template : String
deriving DecidableEq, Repr

structure ChildState where
  id : String
  config : ChildConfig
  profile_id : String
  dm_messages : List DMMessage
  simulation_events : List SimulationEvent
deriving DecidableEq, Repr

/-- Python `template.format(child_age=age)`. -/
def formatChildAge (t : String) (age : Int) : String :=
  strReplace t "{child_age}" (toString age)

/-- Python `template.format(child_name=name)`. -/
def formatChildName (t : String) (name : String) : String :=
  strReplace t "{child_name}" name

/-! ## Scenario catalog (scenarios.py) -/

/-- Embedded `DEFAULT_SCENARIOS` from scenarios.py.  Template strings are
reproduced verbatim (Python triple-quoted strings begin and end with a
newline); apostrophes are written with the `\x27` escape. -/
def DEFAULT_SCENARIOS : List SimulationScenario := [
  { id := "stranger_asking_address",
    title := "Stranger asking for your address",
    description := "A new online \x27friend\x27 asks the child where they live or wants them to share their address/location. This tests how the child responds to sharing private information.",
    risk_type := "privacy",
    recommended_age_min := 8,
    recommended_age_max := 15,
    system_prompt_template :=
      "\nYou are role-playing a kid-safe but slightly risky message in a digital literacy training simulation.\n" ++
      "\nYour role:\n" ++
      "- You are an online acquaintance the child has just met.\n" ++
      "- You are curious and friendly, but you ask for the child\x27s address or where they live.\n" ++
      "- The message MUST NOT be explicit, frightening, or aggressive.\n" ++
      "- It should be subtle enough to seem like a normal chat, but clearly request location info.\n" ++
      "- The child is around {child_age} years old.\n" ++
      "- Do NOT mention AI, simulation, or training.\n" ++
      "Return ONE short message only (1–2 sentences).\n",
    user_message_template :=
      "\nThe child\x27s name is {child_name}.\nWrite the message you send to them in the chat.\n",
    canned_message_template := "Hey {child_name}, you seem really cool! What city do you live in? 😊" },
  { id := "peer_pressure_share_photo",
    title := "Peer pressure to share a photo",
    description := "A peer or online friend encourages the child to send a photo. This tests how the child handles pressure to share personal images.",
    risk_type := "privacy",
    recommended_age_min := 10,
    recommended_age_max := 17,
    system_prompt_template :=
      "\nYou are role-playing a classmate or online friend asking the child to send a photo.\n" ++
      "\nYour role:\n" ++
      "- You are friendly and casual.\n" ++
      "- You encourage the child to send a picture of themselves or their face.\n" ++
      "- The message must stay kid-safe and not sexualized or explicit in any way.\n" ++
      "- The child is around {child_age} years old.\n" ++
      "- Do NOT mention AI, simulation, or training.\n" ++
      "Return ONE short message only (1–2 sentences).\n",
    user_message_template :=
      "\nThe child\x27s name is {child_name}.\nWrite the message you send to them in the chat.\n",
    canned_message_template := "Everyone is sending selfies in the group 😄 you should send one too, {child_name}!" },
  { id := "unfriendly_comment",
    title := "Unfriendly or teasing comment",
    description := "Someone leaves a slightly mean or teasing comment about something the child likes. This tests how the child responds to low-level negativity.",
    risk_type := "bullying",
    recommended_age_min := 8,
    recommended_age_max := 17,
    system_prompt_template :=
      "\nYou are role-playing a peer making a slightly unfriendly or teasing comment.\n" ++
      "\nYour role:\n" ++
      "- You are not extremely cruel, but you are unkind or dismissive about something the child likes.\n" ++
      "- The message should be mild enough to be age-appropriate but clearly not friendly.\n" ++
      "- Avoid slurs, explicit content, or intense bullying.\n" ++
      "- The child is around {child_age} years old.\n" ++
      "- Do NOT mention AI, simulation, or training.\n" ++
      "Return ONE short message only (1–2 sentences).\n",
    user_message_template :=
      "\nThe child\x27s name is {child_name}.\nWrite the message you send to them in the chat.\n",
    canned_message_template := "You post about that game a lot, {child_name}… it\x27s kind of lame tbh." }
]

/-- `get_scenarios_for_child_age` from scenarios.py: scenarios whose
recommended age range contains `age`. -/
def get_scenarios_for_child_age (age : Int) : List SimulationScenario :=
  DEFAULT_SCENARIOS.filter
    (fun s => decide (s.recommended_age_min ≤ age ∧ age ≤ s.recommended_age_max))

/-- `get_scenario_by_id` from scenarios.py: first catalog entry with the
given id, or `none`. -/
def get_scenario_by_id (scenario_id : String) : Option SimulationScenario :=
  DEFAULT_SCENARIOS.find? (fun s => s.id == scenario_id)

/-! ## Simulation session engine (simulation_engine.py) -/

/-- Ordering of messages used by the history builder (`key=lambda m:
m.created_at`). -/
def msgLe (a b : DMMessage) : Prop := a.created_at ≤ b.created_at

instance : DecidableRel msgLe := fun a b => Nat.decLe a.created_at b.created_at

instance : IsTotal DMMessage msgLe := ⟨fun a b => Nat.le_total a.created_at b.created_at⟩

instance : IsTrans DMMessage msgLe := ⟨fun _ _ _ h h' => Nat.le_trans h h'⟩

/-- Python slice `l[-n:]` (for `n = 0` Python returns the whole list). -/
def takeLast (n : Nat) (l : List α) : List α :=
  if n = 0 then l else l.drop (l.length - n)

/-- Messages of one conversation (`[m for m in child.dm_messages if
m.conversation_id == conv_id]`). -/
def convMessages (child : ChildState) (conv_id : String) : List DMMessage :=
  child.dm_messages.filter (fun m => m.conversation_id == conv_id)

/-- The conversation sorted ascending by `created_at` (`msgs.sort(key=lambda
m: m.created_at)`, a stable sort). -/
def sortedConvMessages (child : ChildState) (conv_id : String) : List DMMessage :=
  List.insertionSort msgLe (convMessages child conv_id)

/-- The window of most recent messages kept by the history builder
(`msgs[-max_messages:]`). -/
def historyMessages (child : ChildState) (conv_id : String) (max_messages : Nat) :
    List DMMessage :=
  takeLast max_messages (sortedConvMessages child conv_id)

/-- One rendered transcript line (`'CHILD: ...'` when the sender is the
child\x27s own profile, else `'PARTNER: ...'`). -/
def renderLine (child : ChildState) (m : DMMessage) : String :=
  if m.sender_profile_id == child.profile_id then "CHILD: " ++ m.text
  else "PARTNER: " ++ m.text

/-- `_build_chat_history_for_conv` from simulation_engine.py (the source name
carries a leading underscore).  The unused `garden` parameter is omitted. -/
def build_chat_history_for_conv (child : ChildState) (conv_id : String)
    (max_messages : Nat) : String :=
  joinWith "\n" ((historyMessages child conv_id max_messages).map (renderLine child))

/-- Does a (stripped, lowered) line start with `message:`? -/
def isMsgLine (l : String) : Bool := strStartsWith (strToLower l) "message:"

/-- Does a (stripped, lowered) line start with `endstate:`? -/
def isEndLine (l : String) : Bool := strStartsWith (strToLower l) "endstate:"

/-- Value assigned by the loop for a `Message:` line:
`line.split(":", 1)[1].strip()`. -/
def msgValue (l : String) : String := strTrim (strAfterColon l)

/-- Value assigned by the loop for an `EndState:` line:
`line.split(":", 1)[1].strip().upper()`. -/
def endValue (l : String) : String := strToUpper (strTrim (strAfterColon l))

/-- The stripped, non-empty lines of the raw completion reply
(`[line.strip() for line in raw.splitlines() if line.strip()]`). -/
def stripLines (raw : String) : List String :=
  ((strSplitLines raw).map strTrim).filter (fun l => l != "")

/-- One iteration of the parsing loop in `generate_agent_reply_for_session`
(an `if`/`elif` with assignment, no `break`). -/
def parseStep (acc : String × String) (line : String) : String × String :=
  if isMsgLine line then (msgValue line, acc.2)
  else if isEndLine line then (acc.1, endValue line)
  else acc

/-- The structured-reply parser of `generate_agent_reply_for_session`:
`message_text` starts as `""`, `end_state` starts as `"CONTINUE"`, and the
loop runs over all stripped non-empty lines. -/
def parseAgentReply (raw : String) : String × String :=
  (stripLines raw).foldl parseStep ("", "CONTINUE")

/-- Prompt built by `start_simulation_session`:
`system_part.strip() + "\n\n" + user_part.strip()`. -/
def startPrompt (scenario : SimulationScenario) (child : ChildState) : String :=
  strTrim (formatChildAge scenario.system_prompt_template child.config.age) ++ "\n\n" ++
    strTrim (formatChildName scenario.user_message_template child.config.name)

/-- The continuation `user_prompt` f-string in
`generate_agent_reply_for_session`. -/
def genUserPrompt (age : Int) (chat_history : String) : String :=
  "\nThe child is around " ++ toString age ++ " years old.\n" ++
  "You are continuing the same scenario as before.\n" ++
  "\nHere is the recent chat between you and the child:\n" ++
  chat_history ++ "\n" ++
  "\nYour goals:\n" ++
  "- Stay in character as the partner for this scenario.\n" ++
  "- Continue pushing the scenario in a kid-safe way, without explicit or traumatic content.\n" ++
  "- If the child has clearly:\n" ++
  "  * given multiple unsafe or dangerous responses (e.g., sharing personal info, agreeing to risky requests), OR\n" ++
  "  * demonstrated clear resistance / safe behavior and further pushing would be unkind or unnecessary,\n" ++
  "  you should END the simulation.\n" ++
  "\nWhen you decide what to do, format your answer EXACTLY like this:\n" ++
  "\nMessage: <the next message you send as the partner, 1–2 sentences, or \x27NONE\x27 if you will not send any more messages>\n" ++
  "EndState: CONTINUE or END\n" ++
  "Reason: <brief internal note to the parent/simulator explaining why you chose CONTINUE or END>\n" ++
  "\nDo NOT mention AI, simulation, or training in the Message line. The child only sees the Message content.\n"

/-- Prompt sent by `generate_agent_reply_for_session`:
`system_part.strip() + "\n\n" + user_prompt.strip()`. -/
def genPrompt (scenario : SimulationScenario) (child : ChildState)
    (chat_history : String) : String :=
  strTrim (formatChildAge scenario.system_prompt_template child.config.age) ++ "\n\n" ++
    strTrim (genUserPrompt child.config.age chat_history)

/-- The `eval_prompt` f-string in `evaluate_simulation_session` (sent to the
gateway unstripped). -/
def evalPrompt (scenario : SimulationScenario) (child : ChildState)
    (chat_history : String) : String :=
  "\nYou are an expert in children\x27s digital safety.\n" ++
  "\nScenario:\n" ++
  "- Name: " ++ scenario.title ++ "\n" ++
  "- Risk type: " ++ scenario.risk_type ++ "\n" ++
  "- Child age: " ++ toString child.config.age ++ "\n" ++
  "\nBelow is the chat transcript between the child and the simulated partner.\n" ++
  "Each line is prefixed with CHILD or PARTNER.\n" ++
  "\nChat transcript:\n" ++
  chat_history ++ "\n" ++
  "\nTASK:\n" ++
  "1. Decide if the child\x27s behavior was overall:\n" ++
  "   - SAFE\n" ++
  "   - UNSAFE\n" ++
  "   - NEEDS_REVIEW (mixed, unclear, or borderline).\n" ++
  "2. Explain your reasoning in 2–4 sentences, addressing a parent/guardian.\n" ++
  "\nFormat your answer as:\n" ++
  "\nLabel: SAFE/UNSAFE/NEEDS_REVIEW\n" ++
  "Summary: <your explanation for the parent>\n"

/-- Does a line satisfy `line.lower().strip().startswith("label:")`? -/
def isLabelLine (l : String) : Bool := strStartsWith (strTrim (strToLower l)) "label:"

/-- The label branch of `evaluate_simulation_session` applied to the
uppercased value of the first `Label:` line (an `if`/`elif` chain whose final
fall-through keeps the default `NEEDS_REVIEW`). -/
def labelFromValue (raw : String) : String :=
  if strContainsSub raw "SAFE" && !(strContainsSub raw "UNSAFE") then "SAFE"
  else if strContainsSub raw "UNSAFE" then "UNSAFE"
  else if strContainsSub raw "NEEDS_REVIEW" || strContainsSub raw "NEEDS REVIEW" then "NEEDS_REVIEW"
  else "NEEDS_REVIEW"

/-- The response-parsing tail of `evaluate_simulation_session`: find the
first `Label:` line (the loop breaks after it); if none, the label keeps its
default and the summary is `resp.strip()`. -/
def parseEvalResponse (resp : String) : String × String :=
  let lines := strSplitLines resp
  match lines.find? isLabelLine with
  | none => ("NEEDS_REVIEW", strTrim resp)
  | some line =>
    let raw := strToUpper (strTrim (strAfterColon line))
    let summary0 := strTrim (joinWith "\n" (lines.filter (fun l => ! isLabelLine l)))
    let summary :=
      if strStartsWith (strToLower summary0) "summary:" then strTrim (strAfterColon summary0)
      else summary0
    (labelFromValue raw, summary)

/-- `evaluate_simulation_session` from simulation_engine.py.  The unused
`garden` parameter is omitted; the gateway is the `llm` parameter.  The
result carries the `(label, summary)` pair plus the (unchanged) state the
Python function can reach through its mutable arguments, so that the absence
of mutation is a provable fact rather than a modelling assumption. -/
def evaluate_simulation_session (child : ChildState) (event : SimulationEvent)
    (backend : String) (model_name : Option String) (conv_id : String)
    (llm : String → Except String String) :
    (String × String) × ChildState × SimulationEvent :=
  match get_scenario_by_id event.scenario_id with
  | none => (("NEEDS_REVIEW", "Scenario data missing; unable to evaluate."), child, event)
  | some scenario =>
    let chat_history := build_chat_history_for_conv child conv_id 12
    match llm (evalPrompt scenario child chat_history) with
    | Except.error e =>
      (("NEEDS_REVIEW",
        "Could not run evaluation (" ++ backend ++ " " ++ optToString model_name ++ "): " ++ e),
       child, event)
    | Except.ok resp =>
      let parsed := parseEvalResponse resp
      ((parsed.1, if parsed.2 = "" then strTrim resp else parsed.2), child, event)

/-- `start_simulation_session` from simulation_engine.py.  `now`, `msg_id`
and `event_id` stand for `datetime.utcnow()` and the two `make_id` calls;
raising `ValueError` is embedded as `Except.error`. -/
def start_simulation_session (child : ChildState) (scenario_id : String)
    (partner_profile_id : String) (backend : String) (model_name : Option String)
    (conv_id : String) (llm : String → Except String String)
    (now : Nat) (msg_id : String) (event_id : String) :
    Except String (SimulationEvent × DMMessage × ChildState) :=
  match get_scenario_by_id scenario_id with
  | none => Except.error ("Unknown scenario_id: " ++ scenario_id)
  | some scenario =>
    let text :=
      match llm (startPrompt scenario child) with
      | Except.ok t => t
      | Except.error _ => formatChildName scenario.canned_message_template child.config.name
    let sim_msg : DMMessage :=
      { id := msg_id, child_id := child.id, conversation_id := conv_id,
        sender_profile_id := partner_profile_id, receiver_profile_id := child.profile_id,
        text := text, created_at := now, is_simulation := true,
        simulation_tag := some scenario.id }
    let child1 : ChildState := { child with dm_messages := child.dm_messages ++ [sim_msg] }
    let event : SimulationEvent :=
      { id := event_id, child_id := child.id, scenario_id := scenario.id,
        partner_profile_id := partner_profile_id, created_at := now,
        incoming_message_id := sim_msg.id, child_reply_message_id := none,
        outcome_label := none, backend_used := some backend, model_used := model_name,
        is_active := true, evaluation_summary := none }
    let child2 : ChildState :=
      { child1 with simulation_events := child1.simulation_events ++ [event] }
    Except.ok (event, sim_msg, child2)

/-- `generate_agent_reply_for_session` from simulation_engine.py.  Returns
the optional injected message together with the updated child state (message
log) and the updated session, mirroring the Python mutations of
`child.dm_messages` and `event`. -/
def generate_agent_reply_for_session (child : ChildState) (event : SimulationEvent)
    (backend : String) (model_name : Option String) (conv_id : String)
    (llm : String → Except String String) (now : Nat) (msg_id : String) :
    Option DMMessage × ChildState × SimulationEvent :=
  match get_scenario_by_id event.scenario_id with
  | none => (none, child, event)
  | some scenario =>
    let chat_history := build_chat_history_for_conv child conv_id 12
    if chat_history = "" then (none, child, event)
    else
      match llm (genPrompt scenario child chat_history) with
      | Except.error _ => (none, child, event)
      | Except.ok raw =>
        let parsed := parseAgentReply raw
        let message_text := if strToUpper parsed.1 = "NONE" then "" else parsed.1
        let appended : Option DMMessage × ChildState :=
          if message_text = "" then (none, child)
          else
            let m : DMMessage :=
              { id := msg_id, child_id := child.id, conversation_id := conv_id,
                sender_profile_id := event.partner_profile_id,
                receiver_profile_id := child.profile_id, text := message_text,
                created_at := now, is_simulation := true,
                simulation_tag := some event.scenario_id }
            (some m, { child with dm_messages := child.dm_messages ++ [m] })
        let event' : SimulationEvent :=
          if parsed.2 = "END" then
            let ev : SimulationEvent := { event with is_active := false }
            let ls :=
              (evaluate_simulation_session appended.2 ev backend model_name conv_id llm).1
            { ev with outcome_label := some ls.1, evaluation_summary := some ls.2 }
          else event
        (appended.1, appended.2, event')

/-! ## Spec-side comparison definitions

These two parsers are written from the specification text, not from the
source, to settle the refinement question of which line wins when a prefix
occurs more than once: the spec says the first matching line wins; the code
has no `break` in its loop. -/

/-- Modelled from the spec: value of the first line of `ls` satisfying `p`
(mapped through `f`), or the default `d`. -/
def firstMatchValue (p : String → Bool) (f : String → String) (d : String)
    (ls : List String) : String :=
  match (ls.filter p).head? with
  | some l => f l
  | none => d

/-- Value of the last line of `ls` satisfying `p` (mapped through `f`), or
the default `d`. -/
def lastMatchValue (p : String → Bool) (f : String → String) (d : String)
    (ls : List String) : String :=
  match (ls.filter p).getLast? with
  | some l => f l
  | none => d

/-- Modelled from the spec (§4.4.3 parsing policy): scan lines top-to-bottom,
the FIRST line matching each prefix wins, missing `EndState:` defaults to
`CONTINUE`, missing `Message:` defaults to the empty value. -/
def specFirstWinsParse (raw : String) : String × String :=
  (firstMatchValue isMsgLine msgValue "" (stripLines raw),
   firstMatchValue isEndLine endValue "CONTINUE" (stripLines raw))

/-- The same parsing policy with the LAST matching line winning for each
prefix — the behaviour the code actually has. -/
def specLastWinsParse (raw : String) : String × String :=
  (lastMatchValue isMsgLine msgValue "" (stripLines raw),
   lastMatchValue isEndLine endValue "CONTINUE" (stripLines raw))

/-- Modelled from the spec (§4.4.4): label mapping by substring containment
with the precedence written in the spec — `UNSAFE` checked first, then
`SAFE`, then `NEEDS_REVIEW`/`NEEDS REVIEW`, default `NEEDS_REVIEW`. -/
def claimLabelMap (raw : String) : String :=
  if strContainsSub raw "UNSAFE" then "UNSAFE"
  else if strContainsSub raw "SAFE" then "SAFE"
  else if strContainsSub raw "NEEDS_REVIEW" || strContainsSub raw "NEEDS REVIEW" then "NEEDS_REVIEW"
  else "NEEDS_REVIEW"

/-! ## Concrete fixtures used by witnesses and counterexamples -/

/-- A gateway stub that always fails. -/
def llmDown : String → Except String String := fun _ => Except.error "service unavailable"

/-- A gateway stub that always answers with the fixed reply `r`. -/
def llmConst (r : String) : String → Except String String := fun _ => Except.ok r

/-- Sample child configuration. -/
def sampleConfig : ChildConfig := { name := "Mia", age := 10 }

/-- A partner message sitting in conversation `conv_1`. -/
def sampleMsg : DMMessage :=
  { id := "dm_1", child_id := "child_1", conversation_id := "conv_1",
    sender_profile_id := "profile_partner", receiver_profile_id := "profile_child",
    text := "hi there", created_at := 1, is_simulation := true,
    simulation_tag := some "stranger_asking_address" }

/-- A child with one message of conversation `conv_1` in its log. -/
def sampleChild : ChildState :=
  { id := "child_1", config := sampleConfig, profile_id := "profile_child",
    dm_messages := [sampleMsg], simulation_events := [] }

/-- A child with an empty message log. -/
def emptyChild : ChildState :=
  { id := "child_2", config := sampleConfig, profile_id := "profile_child2",
    dm_messages := [], simulation_events := [] }

/-- An active session for the first catalog scenario. -/
def sampleEvent : SimulationEvent :=
  { id := "sim_1", child_id := "child_1", scenario_id := "stranger_asking_address",
    partner_profile_id := "profile_partner", created_at := 0,
    incoming_message_id := "dm_1", child_reply_message_id := none,
    outcome_label := none, backend_used := some "openai", model_used := none,
    is_active := true, evaluation_summary := none }

/-- A session that is already terminated with a recorded outcome. -/
def terminatedEvent : SimulationEvent :=
  { sampleEvent with
    is_active := false
    outcome_label := some "SAFE"
    evaluation_summary := some "handled it well" }

/-- A session whose scenario id resolves to nothing in the catalog. -/
def unknownScenarioEvent : SimulationEvent :=
  { sampleEvent with scenario_id := "no_such_scenario" }

/-- A completion reply in which both structured prefixes occur twice. -/
def duplicatedLinesReply : String :=
  "Message: A\nMessage: B\nEndState: END\nEndState: CONTINUE\nReason: testing"

/-- A well-formed continuation reply carrying the `NONE` sentinel. -/
def noneReply : String :=
  "Message: NONE\nEndState: CONTINUE\nReason: nothing more to say"

/-- A well-formed continuation reply that ends the session without a message. -/
def endReply : String :=
  "Message: NONE\nEndState: END\nReason: done"

/-- An evaluation reply whose label value contains `SAFE` but not `UNSAFE`. -/
def safeReply : String :=
  "Label: This seems mostly SAFE\nSummary: fine by me"

/-! ## Shared helper lemmas -/

/-- A line matching the `message:` prefix cannot also match the `endstate:`
prefix. -/
theorem not_isEndLine_of_isMsgLine (l : String) (h : isMsgLine l = true) :
    isEndLine l = false := by
  unfold isMsgLine strStartsWith at h
  unfold isEndLine strStartsWith
  rw [List.isPrefixOf_iff_prefix] at h
  by_contra hend
  rw [Bool.not_eq_false, List.isPrefixOf_iff_prefix] at hend
  have hle : ("message:".data).length ≤ ("endstate:".data).length := by decide
  have := List.prefix_of_prefix_length_le h hend hle
  exact absurd this (by decide)

/-- Unfolding `lastMatchValue` over the head of the scanned line list. -/
theorem lastMatchValue_cons (p : String → Bool) (f : String → String) (d h : String)
    (t : List String) :
    lastMatchValue p f d (h :: t) = lastMatchValue p f (if p h then f h else d) t := by
  by_cases hp : p h = true
  · unfold lastMatchValue
    rw [List.filter_cons_of_pos hp, List.getLast?_cons, hp, if_pos rfl]
    cases hq : (t.filter p).getLast? <;> simp [hq]
  · unfold lastMatchValue
    rw [List.filter_cons_of_neg hp]
    have hd : (if p h then f h else d) = d := by
      simp [Bool.not_eq_true] at hp
      simp [hp]
    rw [hd]

/-- The parsing loop of `generate_agent_reply_for_session` computes, for each
of the two prefixes, the value of the last matching line (its `if`/`elif`
body overwrites previous assignments). -/
theorem foldl_parseStep_eq (ls : List String) (m e : String) :
    ls.foldl parseStep (m, e) =
      (lastMatchValue isMsgLine msgValue m ls, lastMatchValue isEndLine endValue e ls) := by
  induction ls generalizing m e with
  | nil => rfl
  | cons h t ih =>
    rw [List.foldl_cons, lastMatchValue_cons, lastMatchValue_cons]
    by_cases hm : isMsgLine h = true
    · have he : isEndLine h = false := not_isEndLine_of_isMsgLine h hm
      simp only [parseStep, hm, if_pos rfl, he, Bool.false_eq_true, if_false]
      exact ih (msgValue h) e
    · by_cases he : isEndLine h = true
      · simp only [parseStep, hm, he]
        simp only [Bool.not_eq_true] at hm
        simp [hm]
        exact ih m (endValue h)
      · simp only [Bool.not_eq_true] at hm he
        simp only [parseStep, hm, he, Bool.false_eq_true, if_false]
        exact ih m e

/-- The source parser agrees with the last-match-wins policy on every reply. -/
theorem parseAgentReply_eq_lastWins (raw : String) :
    parseAgentReply raw = specLastWinsParse raw := by
  unfold parseAgentReply specLastWinsParse
  rw [foldl_parseStep_eq]

/-- The `if`/`elif` label chain of the source is the same mapping as the
precedence order written in the spec (`UNSAFE` first). -/
theorem labelFromValue_eq_claimLabelMap (raw : String) :
    labelFromValue raw = claimLabelMap raw := by
  unfold labelFromValue claimLabelMap
  cases hU : strContainsSub raw "UNSAFE" <;> cases hS : strContainsSub raw "SAFE" <;>
    simp [hU, hS]

/-! ## Claims -/

/-- Claim C9: `evaluate_simulation_session` returns a `(label, summary)` pair
and leaves every field of the session (and of the child state) exactly as it
was: the state component of its result is the input state, on every control
path. -/
theorem claim_C9 : ∀ (child : ChildState) (event : SimulationEvent) (backend : String)
    (model_name : Option String) (conv_id : String) (llm : String → Except String String),
    (evaluate_simulation_session child event backend model_name conv_id llm).2 = (child, event) := by
  intro child event backend model_name conv_id llm
  unfold evaluate_simulation_session
  split
  · rfl
  · dsimp only
    split
    · rfl
    · rfl

/-- Claim C10: `get_scenarios_for_child_age age` contains exactly the catalog
scenarios whose recommended range satisfies `min ≤ age ≤ max` (so boundary
ages are included and `min − 1`, `max + 1` are excluded), and it preserves the
source catalog order. -/
theorem claim_C10 : ∀ (age : Int) (s : SimulationScenario),
    (s ∈ get_scenarios_for_child_age age ↔
      s ∈ DEFAULT_SCENARIOS ∧ s.recommended_age_min ≤ age ∧ age ≤ s.recommended_age_max) ∧
    (get_scenarios_for_child_age age).Sublist DEFAULT_SCENARIOS := by
  intro age s
  refine ⟨?_, List.filter_sublist _⟩
  simp [get_scenarios_for_child_age, List.mem_filter]

/-- Claim C5: an unknown scenario id makes session start fail hard with a
propagated error, while evaluation with an unknown scenario id never throws
and returns `NEEDS_REVIEW` with a non-empty diagnostic. -/
theorem claim_C5 :
    (∀ (child : ChildState) (scenario_id partner backend : String)
       (model_name : Option String) (conv_id : String)
       (llm : String → Except String String) (now : Nat) (msg_id event_id : String),
       get_scenario_by_id scenario_id = none →
       start_simulation_session child scenario_id partner backend model_name conv_id llm
           now msg_id event_id
         = Except.error ("Unknown scenario_id: " ++ scenario_id)) ∧
    (∀ (child : ChildState) (event : SimulationEvent) (backend : String)
       (model_name : Option String) (conv_id : String)
       (llm : String → Except String String),
       get_scenario_by_id event.scenario_id = none →
       (evaluate_simulation_session child event backend model_name conv_id llm).1
           = ("NEEDS_REVIEW", "Scenario data missing; unable to evaluate.") ∧
         ("Scenario data missing; unable to evaluate." : String) ≠ "") := by
  constructor
  · intro child scenario_id partner backend model_name conv_id llm now msg_id event_id h
    unfold start_simulation_session
    rw [h]
  · intro child event backend model_name conv_id llm h
    unfold evaluate_simulation_session
    rw [h]
    exact ⟨rfl, by decide⟩

/-- Witness for claim C5 at a concrete unknown scenario id. -/
theorem claim_C5_witness :
    get_scenario_by_id "no_such_scenario" = none ∧
    start_simulation_session emptyChild "no_such_scenario" "profile_partner" "openai" none
        "conv_1" llmDown 3 "dm_9" "sim_9"
      = Except.error ("Unknown scenario_id: " ++ "no_such_scenario") :=
  ⟨by decide,
   claim_C5.1 emptyChild "no_such_scenario" "profile_partner" "openai" none "conv_1"
     llmDown 3 "dm_9" "sim_9" (by decide)⟩

/-- Claim C4: when the completion gateway fails at session start, the start
still succeeds: the injected message text is the scenario\x27s canned template
rendered with the child\x27s name, the message is appended to the child\x27s
log, and an active (`is_active = true`) session is appended. -/
theorem claim_C4 : ∀ (child : ChildState) (scenario_id partner backend : String)
    (model_name : Option String) (conv_id : String)
    (llm : String → Except String String) (now : Nat) (msg_id event_id : String)
    (scenario : SimulationScenario) (err : String),
    get_scenario_by_id scenario_id = some scenario →
    llm (startPrompt scenario child) = Except.error err →
    ∃ (ev : SimulationEvent) (msg : DMMessage) (child2 : ChildState),
      start_simulation_session child scenario_id partner backend model_name conv_id llm
          now msg_id event_id = Except.ok (ev, msg, child2) ∧
      msg.text = formatChildName scenario.canned_message_template child.config.name ∧
      child2.dm_messages = child.dm_messages ++ [msg] ∧
      ev.is_active = true ∧
      child2.simulation_events = child.simulation_events ++ [ev] := by
  intro child scenario_id partner backend model_name conv_id llm now msg_id event_id
    scenario err hs hl
  unfold start_simulation_session
  rw [hs]
  dsimp only
  rw [hl]
  exact ⟨_, _, _, rfl, rfl, rfl, rfl, rfl⟩

/-- Witness for claim C4: with a gateway that always fails, starting the
first catalog scenario still succeeds and injects the canned message. -/
theorem claim_C4_witness :
    get_scenario_by_id "stranger_asking_address"
        = some (DEFAULT_SCENARIOS.get ⟨0, by decide⟩) ∧
    llmDown (startPrompt (DEFAULT_SCENARIOS.get ⟨0, by decide⟩) sampleChild)
        = Except.error "service unavailable" ∧
    ∃ (ev : SimulationEvent) (msg : DMMessage) (child2 : ChildState),
      start_simulation_session sampleChild "stranger_asking_address" "profile_partner"
          "openai" none "conv_1" llmDown 3 "dm_9" "sim_9" = Except.ok (ev, msg, child2) ∧
      msg.text = formatChildName (DEFAULT_SCENARIOS.get ⟨0, by decide⟩).canned_message_template
          sampleChild.config.name ∧
      child2.dm_messages = sampleChild.dm_messages ++ [msg] ∧
      ev.is_active = true ∧
      child2.simulation_events = sampleChild.simulation_events ++ [ev] :=
  ⟨rfl, rfl,
   claim_C4 sampleChild "stranger_asking_address" "profile_partner" "openai" none "conv_1"
     llmDown 3 "dm_9" "sim_9" (DEFAULT_SCENARIOS.get ⟨0, by decide⟩) "service unavailable"
     rfl rfl⟩

/-- Claim C6: a generate-next-turn call whose scenario id does not resolve,
or whose conversation history renders empty, or whose completion call fails,
returns no message and leaves the child state and the session untouched. -/
theorem claim_C6 :
    (∀ (child : ChildState) (event : SimulationEvent) (backend : String)
       (model_name : Option String) (conv_id : String)
       (llm : String → Except String String) (now : Nat) (msg_id : String),
       get_scenario_by_id event.scenario_id = none →
       generate_agent_reply_for_session child event backend model_name conv_id llm now msg_id
         = (none, child, event)) ∧
    (∀ (child : ChildState) (event : SimulationEvent) (backend : String)
       (model_name : Option String) (conv_id : String)
       (llm : String → Except String String) (now : Nat) (msg_id : String),
       build_chat_history_for_conv child conv_id 12 = "" →
       generate_agent_reply_for_session child event backend model_name conv_id llm now msg_id
         = (none, child, event)) ∧
    (∀ (child : ChildState) (event : SimulationEvent) (backend : String)
       (model_name : Option String) (conv_id : String)
       (llm : String → Except String String) (now : Nat) (msg_id : String)
       (scenario : SimulationScenario) (err : String),
       get_scenario_by_id event.scenario_id = some scenario →
       llm (genPrompt scenario child (build_chat_history_for_conv child conv_id 12))
           = Except.error err →
       generate_agent_reply_for_session child event backend model_name conv_id llm now msg_id
         = (none, child, event)) := by
  refine ⟨?_, ?_, ?_⟩
  · intro child event backend model_name conv_id llm now msg_id h
    unfold generate_agent_reply_for_session
    rw [h]
  · intro child event backend model_name conv_id llm now msg_id h
    unfold generate_agent_reply_for_session
    cases hs : get_scenario_by_id event.scenario_id with
    | none => rfl
    | some scenario =>
      dsimp only
      rw [if_pos h]
  · intro child event backend model_name conv_id llm now msg_id scenario err hs hl
    unfold generate_agent_reply_for_session
    rw [hs]
    dsimp only
    by_cases hh : build_chat_history_for_conv child conv_id 12 = ""
    · rw [if_pos hh]
    · rw [if_neg hh, hl]

/-- Witness for claim C6 at a concrete session whose scenario id is not in
the catalog. -/
theorem claim_C6_witness :
    get_scenario_by_id unknownScenarioEvent.scenario_id = none ∧
    generate_agent_reply_for_session sampleChild unknownScenarioEvent "openai" none "conv_1"
        llmDown 5 "dm_2" = (none, sampleChild, unknownScenarioEvent) :=
  ⟨by decide,
   claim_C6.1 sampleChild unknownScenarioEvent "openai" none "conv_1" llmDown 5 "dm_2"
     (by decide)⟩

/-- Claim C1, counterexample: the claim says the FIRST line matching each
prefix wins, but on a reply where `Message:` and `EndState:` each occur
twice the engine keeps the LAST occurrences: the parser yields
`("B", "CONTINUE")` where the first-wins policy demands `("A", "END")`, and
the generated turn indeed appends the text of the second `Message:` line and
leaves the session active. -/
theorem claim_C1_counterexample :
    parseAgentReply duplicatedLinesReply = ("B", "CONTINUE") ∧
    specFirstWinsParse duplicatedLinesReply = ("A", "END") ∧
    parseAgentReply duplicatedLinesReply ≠ specFirstWinsParse duplicatedLinesReply ∧
    (generate_agent_reply_for_session sampleChild sampleEvent "openai" none "conv_1"
        (llmConst duplicatedLinesReply) 5 "dm_2").1
      = some { id := "dm_2", child_id := "child_1", conversation_id := "conv_1",
               sender_profile_id := "profile_partner", receiver_profile_id := "profile_child",
               text := "B", created_at := 5, is_simulation := true,
               simulation_tag := some "stranger_asking_address" } ∧
    (generate_agent_reply_for_session sampleChild sampleEvent "openai" none "conv_1"
        (llmConst duplicatedLinesReply) 5 "dm_2").2.2.is_active = true := by
  decide

/-- Claim C1 as amended: the reply is parsed by scanning lines top-to-bottom
and for each prefix (matched case-insensitively) the LAST matching line
wins; a reply with no `EndState:` line defaults to `CONTINUE`, and a reply
with no `Message:` line or with the value `NONE` results in no message being
appended that turn. -/
theorem claim_C1_amended :
    (∀ raw : String, parseAgentReply raw = specLastWinsParse raw) ∧
    (∀ (child : ChildState) (event : SimulationEvent) (backend : String)
       (model_name : Option String) (conv_id : String)
       (llm : String → Except String String) (now : Nat) (msg_id : String)
       (scenario : SimulationScenario) (raw : String),
       get_scenario_by_id event.scenario_id = some scenario →
       build_chat_history_for_conv child conv_id 12 ≠ "" →
       llm (genPrompt scenario child (build_chat_history_for_conv child conv_id 12))
           = Except.ok raw →
       (strToUpper (parseAgentReply raw).1 = "NONE" ∨ (parseAgentReply raw).1 = "") →
       (generate_agent_reply_for_session child event backend model_name conv_id llm now
           msg_id).1 = none ∧
       (generate_agent_reply_for_session child event backend model_name conv_id llm now
           msg_id).2.1 = child) := by
  constructor
  · exact parseAgentReply_eq_lastWins
  · intro child event backend model_name conv_id llm now msg_id scenario raw hs hh hl hnone
    unfold generate_agent_reply_for_session
    rw [hs]
    dsimp only
    rw [if_neg hh, hl]
    dsimp only
    have hmt : (if strToUpper (parseAgentReply raw).1 = "NONE" then ""
        else (parseAgentReply raw).1) = "" := by
      rcases hnone with h | h
      · rw [if_pos h]
      · rw [h, if_neg (by decide)]
    rw [if_pos hmt]
    exact ⟨rfl, rfl⟩

/-- Witness for the amended claim C1: a `Message: NONE` reply appends
nothing and leaves the message log untouched. -/
theorem claim_C1_amended_witness :
    get_scenario_by_id sampleEvent.scenario_id = some (DEFAULT_SCENARIOS.get ⟨0, by decide⟩) ∧
    build_chat_history_for_conv sampleChild "conv_1" 12 ≠ "" ∧
    strToUpper (parseAgentReply noneReply).1 = "NONE" ∧
    (generate_agent_reply_for_session sampleChild sampleEvent "openai" none "conv_1"
        (llmConst noneReply) 5 "dm_2").1 = none ∧
    (generate_agent_reply_for_session sampleChild sampleEvent "openai" none "conv_1"
        (llmConst noneReply) 5 "dm_2").2.1 = sampleChild :=
  ⟨rfl, by decide, by decide,
   (claim_C1_amended.2 sampleChild sampleEvent "openai" none "conv_1" (llmConst noneReply)
      5 "dm_2" (DEFAULT_SCENARIOS.get ⟨0, by decide⟩) noneReply rfl (by decide) rfl
      (Or.inl (by decide))).1,
   (claim_C1_amended.2 sampleChild sampleEvent "openai" none "conv_1" (llmConst noneReply)
      5 "dm_2" (DEFAULT_SCENARIOS.get ⟨0, by decide⟩) noneReply rfl (by decide) rfl
      (Or.inl (by decide))).2⟩

/-- Claim C2: when the parsed `EndState` is `END`, generate-next-turn sets
`is_active := false` and synchronously stores the label and summary produced
by evaluation (run on the post-append child state and the deactivated
session) into `outcome_label` and `evaluation_summary` before returning, so
this path never leaves an inactive session with an unset outcome. -/
theorem claim_C2 : ∀ (child : ChildState) (event : SimulationEvent) (backend : String)
    (model_name : Option String) (conv_id : String)
    (llm : String → Except String String) (now : Nat) (msg_id : String)
    (scenario : SimulationScenario) (raw : String),
    get_scenario_by_id event.scenario_id = some scenario →
    build_chat_history_for_conv child conv_id 12 ≠ "" →
    llm (genPrompt scenario child (build_chat_history_for_conv child conv_id 12))
        = Except.ok raw →
    (parseAgentReply raw).2 = "END" →
    (generate_agent_reply_for_session child event backend model_name conv_id llm now
        msg_id).2.2.is_active = false ∧
    (generate_agent_reply_for_session child event backend model_name conv_id llm now
        msg_id).2.2.outcome_label
      = some (evaluate_simulation_session
          (generate_agent_reply_for_session child event backend model_name conv_id llm now
            msg_id).2.1
          { event with is_active := false } backend model_name conv_id llm).1.1 ∧
    (generate_agent_reply_for_session child event backend model_name conv_id llm now
        msg_id).2.2.evaluation_summary
      = some (evaluate_simulation_session
          (generate_agent_reply_for_session child event backend model_name conv_id llm now
            msg_id).2.1
          { event with is_active := false } backend model_name conv_id llm).1.2 := by
  intro child event backend model_name conv_id llm now msg_id scenario raw hs hh hl hend
  unfold generate_agent_reply_for_session
  rw [hs]
  dsimp only
  rw [if_neg hh, hl]
  dsimp only
  rw [if_pos hend]
  exact ⟨rfl, rfl, rfl⟩

/-- Witness for claim C2 on a concrete `EndState: END` reply. -/
theorem claim_C2_witness :
    (parseAgentReply endReply).2 = "END" ∧
    (generate_agent_reply_for_session sampleChild sampleEvent "openai" none "conv_1"
        (llmConst endReply) 5 "dm_2").2.2.is_active = false ∧
    (generate_agent_reply_for_session sampleChild sampleEvent "openai" none "conv_1"
        (llmConst endReply) 5 "dm_2").2.2.outcome_label
      = some (evaluate_simulation_session
          (generate_agent_reply_for_session sampleChild sampleEvent "openai" none "conv_1"
            (llmConst endReply) 5 "dm_2").2.1
          { sampleEvent with is_active := false } "openai" none "conv_1"
          (llmConst endReply)).1.1 :=
  ⟨by decide,
   (claim_C2 sampleChild sampleEvent "openai" none "conv_1" (llmConst endReply) 5 "dm_2"
      (DEFAULT_SCENARIOS.get ⟨0, by decide⟩) endReply rfl (by decide) rfl (by decide)).1,
   (claim_C2 sampleChild sampleEvent "openai" none "conv_1" (llmConst endReply) 5 "dm_2"
      (DEFAULT_SCENARIOS.get ⟨0, by decide⟩) endReply rfl (by decide) rfl (by decide)).2.1⟩

/-- Claim C3: whenever the evaluation response has a `Label:` line
(case-insensitive), the label returned by evaluate is obtained from the
uppercased value after the colon by substring containment with `UNSAFE`
taking precedence over `SAFE`, then `NEEDS_REVIEW`/`NEEDS REVIEW`, with
default `NEEDS_REVIEW` — the precedence order written in the spec coincides
with the `if`/`elif` chain of the code. -/
theorem claim_C3 : ∀ (child : ChildState) (event : SimulationEvent) (backend : String)
    (model_name : Option String) (conv_id : String)
    (llm : String → Except String String) (resp : String)
    (scenario : SimulationScenario) (line : String),
    get_scenario_by_id event.scenario_id = some scenario →
    llm (evalPrompt scenario child (build_chat_history_for_conv child conv_id 12))
        = Except.ok resp →
    (strSplitLines resp).find? isLabelLine = some line →
    (evaluate_simulation_session child event backend model_name conv_id llm).1.1
      = claimLabelMap (strToUpper (strTrim (strAfterColon line))) := by
  intro child event backend model_name conv_id llm resp scenario line hs hl hline
  unfold evaluate_simulation_session
  rw [hs]
  dsimp only
  rw [hl]
  dsimp only
  unfold parseEvalResponse
  dsimp only
  rw [hline]
  exact labelFromValue_eq_claimLabelMap _

/-- Witness for claim C3: a label value containing `SAFE` but not `UNSAFE`
resolves to `SAFE`. -/
theorem claim_C3_witness :
    (strSplitLines safeReply).find? isLabelLine = some "Label: This seems mostly SAFE" ∧
    (evaluate_simulation_session sampleChild sampleEvent "openai" none "conv_1"
        (llmConst safeReply)).1.1
      = claimLabelMap (strToUpper (strTrim (strAfterColon "Label: This seems mostly SAFE"))) ∧
    (evaluate_simulation_session sampleChild sampleEvent "openai" none "conv_1"
        (llmConst safeReply)).1.1 = "SAFE" :=
  ⟨by decide,
   claim_C3 sampleChild sampleEvent "openai" none "conv_1" (llmConst safeReply) safeReply
     (DEFAULT_SCENARIOS.get ⟨0, by decide⟩) "Label: This seems mostly SAFE" rfl rfl
     (by decide),
   by decide⟩

/-- Claim C7: generate-next-turn never reads `is_active` — for every input
state the call on a session with `is_active := b` returns the same message
and the same child state as the call with `is_active := true`, and the
resulting session differs only in that the final `is_active` is `false` when
the turn ended the session and the caller-supplied `b` otherwise.
Consequently (second conjunct, shown on a concrete run) a terminated session
is not rejected: a turn on it can append a further message and overwrite a
previously recorded outcome by re-running evaluation. -/
theorem claim_C7 :
    (∀ (child : ChildState) (event : SimulationEvent) (backend : String)
       (model_name : Option String) (conv_id : String)
       (llm : String → Except String String) (now : Nat) (msg_id : String) (b : Bool),
       generate_agent_reply_for_session child { event with is_active := b } backend model_name
           conv_id llm now msg_id
         = ((generate_agent_reply_for_session child { event with is_active := true } backend
              model_name conv_id llm now msg_id).1,
            (generate_agent_reply_for_session child { event with is_active := true } backend
              model_name conv_id llm now msg_id).2.1,
            { (generate_agent_reply_for_session child { event with is_active := true } backend
                model_name conv_id llm now msg_id).2.2 with
              is_active :=
                if (generate_agent_reply_for_session child { event with is_active := true }
                    backend model_name conv_id llm now msg_id).2.2.is_active then b
                else false })) ∧
    ((generate_agent_reply_for_session sampleChild terminatedEvent "openai" none "conv_1"
        (llmConst "Message: hi\nEndState: END\nReason: r") 5 "dm_2").1.isSome = true ∧
     (generate_agent_reply_for_session sampleChild terminatedEvent "openai" none "conv_1"
        (llmConst "Message: hi\nEndState: END\nReason: r") 5 "dm_2").2.2.outcome_label
       = some "NEEDS_REVIEW" ∧
     terminatedEvent.is_active = false ∧
     terminatedEvent.outcome_label = some "SAFE") := by
  constructor
  · intro child event backend model_name conv_id llm now msg_id b
    unfold generate_agent_reply_for_session
    dsimp only
    cases hs : get_scenario_by_id event.scenario_id with
    | none => rfl
    | some scenario =>
      dsimp only
      by_cases hh : build_chat_history_for_conv child conv_id 12 = ""
      · simp only [if_pos hh]
        rfl
      · simp only [if_neg hh]
        cases hl : llm (genPrompt scenario child (build_chat_history_for_conv child conv_id 12)) with
        | error e => rfl
        | ok raw =>
          dsimp only
          by_cases hend : (parseAgentReply raw).2 = "END"
          · simp only [if_pos hend]
            rfl
          · simp only [if_neg hend]
            rfl
  · refine ⟨by decide, by decide, by decide, by decide⟩

/-- Claim C8: the history renderer returns the empty string on an empty
conversation; otherwise it renders exactly `min(#conversation messages, 12)`
entries — the most recent window of the conversation sorted ascending by
`created_at` (the window is a suffix of the sorted conversation, which is a
permutation of the conversation) — each line being `CHILD:`-prefixed for the
child\x27s own profile and `PARTNER:`-prefixed otherwise, joined by
newlines. -/
theorem claim_C8 : ∀ (child : ChildState) (conv_id : String),
    (convMessages child conv_id = [] → build_chat_history_for_conv child conv_id 12 = "") ∧
    (historyMessages child conv_id 12).length = min (convMessages child conv_id).length 12 ∧
    List.Sorted msgLe (historyMessages child conv_id 12) ∧
    historyMessages child conv_id 12 <:+ sortedConvMessages child conv_id ∧
    List.Perm (sortedConvMessages child conv_id) (convMessages child conv_id) ∧
    build_chat_history_for_conv child conv_id 12
      = joinWith "\n" ((historyMessages child conv_id 12).map (renderLine child)) := by
  intro child conv_id
  refine ⟨?_, ?_, ?_, ?_, List.perm_insertionSort msgLe _, rfl⟩
  · intro h
    unfold build_chat_history_for_conv historyMessages sortedConvMessages
    rw [h]
    rfl
  · unfold historyMessages takeLast
    rw [if_neg (by decide : ¬(12 = 0)), List.length_drop]
    have hlen : (sortedConvMessages child conv_id).length = (convMessages child conv_id).length :=
      (List.perm_insertionSort msgLe _).length_eq
    rw [hlen]
    omega
  · have hs : List.Sorted msgLe (sortedConvMessages child conv_id) :=
      List.sorted_insertionSort msgLe _
    unfold historyMessages takeLast
    rw [if_neg (by decide : ¬(12 = 0))]
    exact List.Pairwise.sublist (List.drop_sublist _ _) hs
  · unfold historyMessages takeLast
    rw [if_neg (by decide : ¬(12 = 0))]
    exact List.drop_suffix _ _

/-- Witness for claim C8 on a child with an empty message log. -/
theorem claim_C8_witness :
    convMessages emptyChild "conv_1" = [] ∧
    build_chat_history_for_conv emptyChild "conv_1" 12 = "" :=
  ⟨by decide, (claim_C8 emptyChild "conv_1").1 (by decide)⟩
